import Mathlib

/-!
Shallow embedding of the node-hamlib command dispatch and async-worker layer
(src/hamlib.cpp, src/hamlib.h).

The embedding follows the source structure:
  * each public `NodeHamLib::X(const Napi::CallbackInfo&)` method becomes a
    Lean function from the instance state and the JavaScript argument list to
    a `DispatchResult` (synchronous throw, queued async worker, or direct value);
  * each `XAsyncWorker` becomes a branch of `workerRun`, split into the
    `Execute` phase (an `ExecOut`: result code, error message, list of hamlib
    invocations, post-state) and the `OnOK` phase (a promise `Settlement`);
  * the external hamlib library (`rig_set_freq`, `rig_get_channel`, ...) is an
    oracle `HwLib` giving a status code per invocation plus out-values, per the
    interface boundary of the spec; pure external helpers (`rigerror`,
    `rig_parse_mode`, `rig_parse_parm`, `rig_strrmode`, `rig_strptrshift`) are
    modelled as total functions.
JavaScript doubles are modelled as integers: every numeric input appearing in
the claims is integral and the only arithmetic on them is comparison.
-/

/-- hamlib VFO selector constants (`vfo_t`) reachable from this binding. -/
inductive vfo_t where
  | RIG_VFO_CURR
  | RIG_VFO_A
  | RIG_VFO_B
  | RIG_VFO_MEM
  deriving DecidableEq, Repr

/-- hamlib split on/off constants (`split_t`). -/
inductive split_t where
  | RIG_SPLIT_OFF
  | RIG_SPLIT_ON
  deriving DecidableEq, Repr

/-- hamlib radio mode constants (`rmode_t`), a representative closed set of the
modes named by `rig_parse_mode` at the external interface boundary. -/
inductive rmode_t where
  | RIG_MODE_NONE
  | RIG_MODE_AM
  | RIG_MODE_CW
  | RIG_MODE_USB
  | RIG_MODE_LSB
  | RIG_MODE_FM
  | RIG_MODE_WFM
  | RIG_MODE_RTTY
  | RIG_MODE_PKTUSB
  deriving DecidableEq, Repr

/-- hamlib passband width (`pbwidth_t`), kept symbolic: `RIG_PASSBAND_NORMAL`,
or the value returned by `rig_passband_narrow` / `rig_passband_wide` for a
given mode. -/
inductive pbwidth_t where
  | RIG_PASSBAND_NORMAL
  | narrowFor (mode : rmode_t)
  | wideFor (mode : rmode_t)
  deriving DecidableEq, Repr

/-- hamlib reset level constants (`reset_t`). -/
inductive reset_t where
  | RIG_RESET_NONE
  | RIG_RESET_SOFT
  | RIG_RESET_VFO
  | RIG_RESET_MCALL
  | RIG_RESET_MASTER
  deriving DecidableEq, Repr

/-- hamlib scan type constants (`scan_t`); `RIG_SCAN_PRIORITY` stands for the
source's priority-scan constant. -/
inductive scan_t where
  | RIG_SCAN_VFO
  | RIG_SCAN_MEM
  | RIG_SCAN_PROG
  | RIG_SCAN_DELTA
  | RIG_SCAN_PRIORITY
  deriving DecidableEq, Repr

/-- hamlib VFO operation constants (`vfo_op_t`). -/
inductive vfo_op_t where
  | RIG_OP_CPY
  | RIG_OP_XCHG
  | RIG_OP_FROM_VFO
  | RIG_OP_TO_VFO
  | RIG_OP_MCL
  | RIG_OP_UP
  | RIG_OP_DOWN
  | RIG_OP_BAND_UP
  | RIG_OP_BAND_DOWN
  | RIG_OP_LEFT
  | RIG_OP_RIGHT
  | RIG_OP_TUNE
  | RIG_OP_TOGGLE
  deriving DecidableEq, Repr

/-- hamlib PTT line control types (`ptt_type_t`). -/
inductive ptt_type_t where
  | RIG_PTT_RIG
  | RIG_PTT_SERIAL_DTR
  | RIG_PTT_SERIAL_RTS
  | RIG_PTT_PARALLEL
  | RIG_PTT_CM108
  | RIG_PTT_GPIO
  | RIG_PTT_GPION
  | RIG_PTT_NONE
  deriving DecidableEq, Repr

/-- hamlib DCD line control types (`dcd_type_t`). -/
inductive dcd_type_t where
  | RIG_DCD_RIG
  | RIG_DCD_SERIAL_DSR
  | RIG_DCD_SERIAL_CTS
  | RIG_DCD_SERIAL_CAR
  | RIG_DCD_PARALLEL
  | RIG_DCD_CM108
  | RIG_DCD_GPIO
  | RIG_DCD_GPION
  | RIG_DCD_NONE
  deriving DecidableEq, Repr

/-- hamlib repeater shift constants (`rptr_shift_t`). -/
inductive rptr_shift_t where
  | RIG_RPT_SHIFT_NONE
  | RIG_RPT_SHIFT_MINUS
  | RIG_RPT_SHIFT_PLUS
  deriving DecidableEq, Repr

/-- hamlib level identifiers (`RIG_LEVEL_*` bits of `setting_t`), in the order
the source enumerates them in `GetSupportedLevels`. -/
inductive level_t where
  | RIG_LEVEL_AF
  | RIG_LEVEL_RF
  | RIG_LEVEL_SQL
  | RIG_LEVEL_RFPOWER
  | RIG_LEVEL_MICGAIN
  | RIG_LEVEL_IF
  | RIG_LEVEL_APF
  | RIG_LEVEL_NR
  | RIG_LEVEL_PBT_IN
  | RIG_LEVEL_PBT_OUT
  | RIG_LEVEL_CWPITCH
  | RIG_LEVEL_KEYSPD
  | RIG_LEVEL_NOTCHF
  | RIG_LEVEL_COMP
  | RIG_LEVEL_AGC
  | RIG_LEVEL_BKINDL
  | RIG_LEVEL_BALANCE
  | RIG_LEVEL_VOXGAIN
  | RIG_LEVEL_VOXDELAY
  | RIG_LEVEL_ANTIVOX
  | RIG_LEVEL_STRENGTH
  | RIG_LEVEL_RAWSTR
  | RIG_LEVEL_SWR
  | RIG_LEVEL_ALC
  | RIG_LEVEL_RFPOWER_METER
  | RIG_LEVEL_COMP_METER
  | RIG_LEVEL_VD_METER
  | RIG_LEVEL_ID_METER
  | RIG_LEVEL_TEMP_METER
  deriving DecidableEq, Repr

/-- hamlib function identifiers (`RIG_FUNC_*` bits of `setting_t`). -/
inductive func_t where
  | RIG_FUNC_FAGC
  | RIG_FUNC_NB
  | RIG_FUNC_COMP
  | RIG_FUNC_VOX
  | RIG_FUNC_TONE
  | RIG_FUNC_TSQL
  | RIG_FUNC_SBKIN
  | RIG_FUNC_FBKIN
  | RIG_FUNC_ANF
  | RIG_FUNC_NR
  | RIG_FUNC_AIP
  | RIG_FUNC_APF
  | RIG_FUNC_TUNER
  | RIG_FUNC_XIT
  | RIG_FUNC_RIT
  | RIG_FUNC_LOCK
  | RIG_FUNC_MUTE
  | RIG_FUNC_VSC
  | RIG_FUNC_REV
  | RIG_FUNC_SQL
  | RIG_FUNC_ABM
  | RIG_FUNC_BC
  | RIG_FUNC_MBC
  | RIG_FUNC_AFC
  | RIG_FUNC_SATMODE
  | RIG_FUNC_SCOPE
  | RIG_FUNC_RESUME
  | RIG_FUNC_TBURST
  deriving DecidableEq, Repr

/-- hamlib parameter identifiers (`RIG_PARM_*` bits of `setting_t`), the
closed set recognized by the external parser `rig_parse_parm`. -/
inductive parm_t where
  | RIG_PARM_ANN
  | RIG_PARM_APO
  | RIG_PARM_BACKLIGHT
  | RIG_PARM_BEEP
  | RIG_PARM_TIME
  | RIG_PARM_BAT
  | RIG_PARM_KEYLIGHT
  deriving DecidableEq, Repr

/-- hamlib status code `RIG_OK`. -/
def RIG_OK : Int := 0

/-- hamlib error code `RIG_EINVAL` (functions return its negation). -/
def RIG_EINVAL : Int := 1

/-- hamlib error code `RIG_ETIMEOUT`. -/
def RIG_ETIMEOUT : Int := 5

/-- hamlib error code `RIG_EIO`. -/
def RIG_EIO : Int := 6

/-- hamlib error code `RIG_EPROTO`. -/
def RIG_EPROTO : Int := 8

/-- hamlib error code `RIG_ENAVAIL`. -/
def RIG_ENAVAIL : Int := 11

/-- External hamlib diagnostic text for a status code (`rigerror`), modelled at
the interface boundary as an injective, never-empty rendering of the code. -/
def rigerror (code : Int) : String :=
  "rigerror:" ++ toString code

/-- External hamlib mode-name parser (`rig_parse_mode`), modelled at the
interface boundary over the representative closed mode set; any unrecognized
name maps to `RIG_MODE_NONE`. -/
def rig_parse_mode (s : String) : rmode_t :=
  if s = "AM" then .RIG_MODE_AM
  else if s = "CW" then .RIG_MODE_CW
  else if s = "USB" then .RIG_MODE_USB
  else if s = "LSB" then .RIG_MODE_LSB
  else if s = "FM" then .RIG_MODE_FM
  else if s = "WFM" then .RIG_MODE_WFM
  else if s = "RTTY" then .RIG_MODE_RTTY
  else if s = "PKTUSB" then .RIG_MODE_PKTUSB
  else .RIG_MODE_NONE

/-- External hamlib mode-name printer (`rig_strrmode`), modelled at the
interface boundary as the inverse of `rig_parse_mode` on the closed set. -/
def rig_strrmode (m : rmode_t) : String :=
  match m with
  | .RIG_MODE_NONE => ""
  | .RIG_MODE_AM => "AM"
  | .RIG_MODE_CW => "CW"
  | .RIG_MODE_USB => "USB"
  | .RIG_MODE_LSB => "LSB"
  | .RIG_MODE_FM => "FM"
  | .RIG_MODE_WFM => "WFM"
  | .RIG_MODE_RTTY => "RTTY"
  | .RIG_MODE_PKTUSB => "PKTUSB"

/-- External hamlib narrow-passband query (`rig_passband_narrow`), kept
symbolic: the result is the narrow width for the given mode. -/
def rig_passband_narrow (mode : rmode_t) : pbwidth_t :=
  .narrowFor mode

/-- External hamlib wide-passband query (`rig_passband_wide`), kept symbolic. -/
def rig_passband_wide (mode : rmode_t) : pbwidth_t :=
  .wideFor mode

/-- External hamlib repeater-shift printer (`rig_strptrshift`), modelled at the
interface boundary. -/
def rig_strptrshift (s : rptr_shift_t) : String :=
  match s with
  | .RIG_RPT_SHIFT_NONE => "None"
  | .RIG_RPT_SHIFT_MINUS => "-"
  | .RIG_RPT_SHIFT_PLUS => "+"

/-- External hamlib parameter-name parser (`rig_parse_parm`), modelled at the
interface boundary; `none` stands for the source's `parm == 0` failure. -/
def rig_parse_parm (s : String) : Option parm_t :=
  if s = "ANN" then some .RIG_PARM_ANN
  else if s = "APO" then some .RIG_PARM_APO
  else if s = "BACKLIGHT" then some .RIG_PARM_BACKLIGHT
  else if s = "BEEP" then some .RIG_PARM_BEEP
  else if s = "TIME" then some .RIG_PARM_TIME
  else if s = "BAT" then some .RIG_PARM_BAT
  else if s = "KEYLIGHT" then some .RIG_PARM_KEYLIGHT
  else none

/-- JavaScript argument values visible through `Napi::CallbackInfo`; numbers
are modelled as integers (see the header note). -/
inductive JSVal where
  | num (n : Int)
  | str (s : String)
  | boolean (b : Bool)
  | jsObject
  deriving DecidableEq, Repr

/-- Test `info[i].IsString()` with the bounds behavior of `Napi::CallbackInfo`
(out-of-range indices read as `undefined`, which is not a string). -/
def argIsString (args : List JSVal) (i : Nat) : Bool :=
  match args.get? i with
  | some (.str _) => true
  | _ => false

/-- Value of `info[i].As<Napi::String>().Utf8Value()`; only consulted after an
`IsString` guard in every dispatcher. -/
def argString (args : List JSVal) (i : Nat) : String :=
  match args.get? i with
  | some (.str s) => s
  | _ => ""

/-- Test `info[i].IsNumber()`. -/
def argIsNumber (args : List JSVal) (i : Nat) : Bool :=
  match args.get? i with
  | some (.num _) => true
  | _ => false

/-- Value of `info[i].As<Napi::Number>()`; only consulted after an `IsNumber`
guard. -/
def argNum (args : List JSVal) (i : Nat) : Int :=
  match args.get? i with
  | some (.num n) => n
  | _ => 0

/-- Test `info[i].IsBoolean()`. -/
def argIsBoolean (args : List JSVal) (i : Nat) : Bool :=
  match args.get? i with
  | some (.boolean _) => true
  | _ => false

/-- Value of `info[i].As<Napi::Boolean>().Value()`; only consulted after an
`IsBoolean` guard. -/
def argBool (args : List JSVal) (i : Nat) : Bool :=
  match args.get? i with
  | some (.boolean b) => b
  | _ => false

/-- Mutable instance state of a `NodeHamLib` object: `rigPresent` models
`my_rig != nullptr`, `rig_is_open` is the open flag, and the two port-type
fields model `my_rig->state.pttport.type.ptt` / `dcdport.type.dcd`, which the
PTT/DCD type workers read and write directly. -/
structure RigState where
  rigPresent : Bool
  rig_is_open : Bool
  pttPortType : ptt_type_t
  dcdPortType : dcd_type_t
  deriving DecidableEq, Repr

/-- The out-structure filled by `rig_get_channel` (`channel_t`), restricted to
the fields `GetMemoryChannelAsyncWorker::OnOK` reads. -/
structure ChannelData where
  channel_num : Int
  freq : Int
  mode : rmode_t
  width : Int
  channel_desc : String
  split : split_t
  tx_freq : Int
  ctcss_tone : Int
  deriving DecidableEq, Repr

/-- The zeroed `channel_t` produced by the worker constructor's `memset`. -/
def zeroChannel : ChannelData :=
  { channel_num := 0, freq := 0, mode := .RIG_MODE_NONE, width := 0,
    channel_desc := "", split := .RIG_SPLIT_OFF, tx_freq := 0, ctcss_tone := 0 }

/-- One invocation of the external hamlib library, with the arguments the
binding passes (the device handle argument is implicit). -/
inductive HwCall where
  | rig_open
  | rig_set_freq_callback
  | rig_set_ptt_callback
  | rig_set_trn
  | rig_close
  | rig_cleanup
  | rig_set_freq (vfo : vfo_t) (freq : Int)
  | rig_get_freq (vfo : vfo_t)
  | rig_set_mode (vfo : vfo_t) (mode : rmode_t) (width : pbwidth_t)
  | rig_set_vfo (vfo : vfo_t)
  | rig_get_vfo
  | rig_get_channel (channel_num : Int) (read_only : Bool)
  | rig_set_split_vfo (rx_vfo : vfo_t) (split : split_t) (tx_vfo : vfo_t)
  | rig_set_level (vfo : vfo_t) (level : level_t) (value : Int)
  | rig_set_func (vfo : vfo_t) (func : func_t) (status : Int)
  | rig_scan (vfo : vfo_t) (scan : scan_t) (channel : Int)
  | rig_vfo_op (vfo : vfo_t) (op : vfo_op_t)
  | rig_set_parm (parm : parm_t) (value : Int)
  | rig_get_parm (parm : parm_t)
  | rig_get_rptr_shift (vfo : vfo_t)
  | rig_reset (level : reset_t)
  deriving DecidableEq, Repr

/-- Oracle for the external hamlib library: a status code for each submitted
invocation, plus the out-values written on success. -/
structure HwLib where
  status : HwCall → Int
  freqOut : Int
  vfoOut : vfo_t
  chanOut : ChannelData
  shiftOut : rptr_shift_t
  parmOut : Int

/-- Device capability record (`my_rig->caps`), restricted to the level masks
`GetSupportedLevels` reads; a mask is a predicate over level bits. -/
structure RigCaps where
  has_get_level : level_t → Bool
  has_set_level : level_t → Bool

/-- Helper `parseVfoParameter(info, index, defaultVfo)` (hamlib.cpp:2182):
reads an optional VFO argument; any unrecognized or non-string value falls
back to `defaultVfo` silently. -/
def parseVfoParameter (args : List JSVal) (index : Nat)
    (defaultVfo : vfo_t := .RIG_VFO_CURR) : vfo_t :=
  if args.length > index ∧ argIsString args index then
    let vfoStr := argString args index
    if vfoStr = "VFO-A" then .RIG_VFO_A
    else if vfoStr = "VFO-B" then .RIG_VFO_B
    else defaultVfo
  else defaultVfo

/-- Encoding ladder of `GetVfoAsyncWorker::OnOK` (hamlib.cpp:922): VFO
constant to display name, defaulting to `"VFO-CURR"`. -/
def vfoDisplayName (v : vfo_t) : String :=
  if v = .RIG_VFO_A then "VFO-A"
  else if v = .RIG_VFO_B then "VFO-B"
  else if v = .RIG_VFO_CURR then "VFO-CURR"
  else if v = .RIG_VFO_MEM then "VFO-MEM"
  else "VFO-CURR"

/-- Decoding ladder of `SetPttTypeAsyncWorker::Execute` (hamlib.cpp:1626);
`none` stands for the `Invalid PTT type` failure branch. -/
def parsePttType (s : String) : Option ptt_type_t :=
  if s = "RIG" then some .RIG_PTT_RIG
  else if s = "DTR" then some .RIG_PTT_SERIAL_DTR
  else if s = "RTS" then some .RIG_PTT_SERIAL_RTS
  else if s = "PARALLEL" then some .RIG_PTT_PARALLEL
  else if s = "CM108" then some .RIG_PTT_CM108
  else if s = "GPIO" then some ptt_type_t.RIG_PTT_GPIO
  else if s = "GPION" then some ptt_type_t.RIG_PTT_GPION
  else if s = "NONE" then some .RIG_PTT_NONE
  else none

/-- Encoding switch of `GetPttTypeAsyncWorker::Execute` (hamlib.cpp:1681). -/
def pttTypeName (t : ptt_type_t) : String :=
  match t with
  | .RIG_PTT_RIG => "RIG"
  | .RIG_PTT_SERIAL_DTR => "DTR"
  | .RIG_PTT_SERIAL_RTS => "RTS"
  | .RIG_PTT_PARALLEL => "PARALLEL"
  | .RIG_PTT_CM108 => "CM108"
  | ptt_type_t.RIG_PTT_GPIO => "GPIO"
  | .RIG_PTT_GPION => "GPION"
  | .RIG_PTT_NONE => "NONE"

/-- Decoding ladder of `SetDcdTypeAsyncWorker::Execute` (hamlib.cpp:1741). -/
def parseDcdType (s : String) : Option dcd_type_t :=
  if s = "RIG" then some .RIG_DCD_RIG
  else if s = "DSR" then some .RIG_DCD_SERIAL_DSR
  else if s = "CTS" then some .RIG_DCD_SERIAL_CTS
  else if s = "CD" then some .RIG_DCD_SERIAL_CAR
  else if s = "PARALLEL" then some .RIG_DCD_PARALLEL
  else if s = "CM108" then some .RIG_DCD_CM108
  else if s = "GPIO" then some dcd_type_t.RIG_DCD_GPIO
  else if s = "GPION" then some dcd_type_t.RIG_DCD_GPION
  else if s = "NONE" then some .RIG_DCD_NONE
  else none

/-- Encoding switch of `GetDcdTypeAsyncWorker::Execute` (hamlib.cpp:1798). -/
def dcdTypeName (t : dcd_type_t) : String :=
  match t with
  | .RIG_DCD_RIG => "RIG"
  | .RIG_DCD_SERIAL_DSR => "DSR"
  | .RIG_DCD_SERIAL_CTS => "CTS"
  | .RIG_DCD_SERIAL_CAR => "CD"
  | .RIG_DCD_PARALLEL => "PARALLEL"
  | .RIG_DCD_CM108 => "CM108"
  | dcd_type_t.RIG_DCD_GPIO => "GPIO"
  | .RIG_DCD_GPION => "GPION"
  | .RIG_DCD_NONE => "NONE"

/-- Decoding ladder of `NodeHamLib::SetLevel` (hamlib.cpp:2885); `none` stands
for the `Invalid level type` throw. -/
def parseLevelName (s : String) : Option level_t :=
  if s = "AF" then some .RIG_LEVEL_AF
  else if s = "RF" then some .RIG_LEVEL_RF
  else if s = "SQL" then some .RIG_LEVEL_SQL
  else if s = "RFPOWER" then some .RIG_LEVEL_RFPOWER
  else if s = "MICGAIN" then some .RIG_LEVEL_MICGAIN
  else if s = "IF" then some .RIG_LEVEL_IF
  else if s = "APF" then some .RIG_LEVEL_APF
  else if s = "NR" then some .RIG_LEVEL_NR
  else if s = "PBT_IN" then some .RIG_LEVEL_PBT_IN
  else if s = "PBT_OUT" then some .RIG_LEVEL_PBT_OUT
  else if s = "CWPITCH" then some .RIG_LEVEL_CWPITCH
  else if s = "KEYSPD" then some .RIG_LEVEL_KEYSPD
  else if s = "NOTCHF" then some .RIG_LEVEL_NOTCHF
  else if s = "COMP" then some .RIG_LEVEL_COMP
  else if s = "AGC" then some .RIG_LEVEL_AGC
  else if s = "BKINDL" then some .RIG_LEVEL_BKINDL
  else if s = "BALANCE" then some .RIG_LEVEL_BALANCE
  else if s = "VOXGAIN" then some .RIG_LEVEL_VOXGAIN
  else if s = "VOXDELAY" then some .RIG_LEVEL_VOXDELAY
  else if s = "ANTIVOX" then some .RIG_LEVEL_ANTIVOX
  else none

/-- Level names as emitted by `GetSupportedLevels` (hamlib.cpp:3005), one per
level bit, in source order. -/
def levelName (l : level_t) : String :=
  match l with
  | .RIG_LEVEL_AF => "AF"
  | .RIG_LEVEL_RF => "RF"
  | .RIG_LEVEL_SQL => "SQL"
  | .RIG_LEVEL_RFPOWER => "RFPOWER"
  | .RIG_LEVEL_MICGAIN => "MICGAIN"
  | .RIG_LEVEL_IF => "IF"
  | .RIG_LEVEL_APF => "APF"
  | .RIG_LEVEL_NR => "NR"
  | .RIG_LEVEL_PBT_IN => "PBT_IN"
  | .RIG_LEVEL_PBT_OUT => "PBT_OUT"
  | .RIG_LEVEL_CWPITCH => "CWPITCH"
  | .RIG_LEVEL_KEYSPD => "KEYSPD"
  | .RIG_LEVEL_NOTCHF => "NOTCHF"
  | .RIG_LEVEL_COMP => "COMP"
  | .RIG_LEVEL_AGC => "AGC"
  | .RIG_LEVEL_BKINDL => "BKINDL"
  | .RIG_LEVEL_BALANCE => "BALANCE"
  | .RIG_LEVEL_VOXGAIN => "VOXGAIN"
  | .RIG_LEVEL_VOXDELAY => "VOXDELAY"
  | .RIG_LEVEL_ANTIVOX => "ANTIVOX"
  | .RIG_LEVEL_STRENGTH => "STRENGTH"
  | .RIG_LEVEL_RAWSTR => "RAWSTR"
  | .RIG_LEVEL_SWR => "SWR"
  | .RIG_LEVEL_ALC => "ALC"
  | .RIG_LEVEL_RFPOWER_METER => "RFPOWER_METER"
  | .RIG_LEVEL_COMP_METER => "COMP_METER"
  | .RIG_LEVEL_VD_METER => "VD_METER"
  | .RIG_LEVEL_ID_METER => "ID_METER"
  | .RIG_LEVEL_TEMP_METER => "TEMP_METER"

/-- The level bits `GetSupportedLevels` tests, in source order. -/
def levelOrder : List level_t :=
  [.RIG_LEVEL_AF, .RIG_LEVEL_RF, .RIG_LEVEL_SQL, .RIG_LEVEL_RFPOWER,
   .RIG_LEVEL_MICGAIN, .RIG_LEVEL_IF, .RIG_LEVEL_APF, .RIG_LEVEL_NR,
   .RIG_LEVEL_PBT_IN, .RIG_LEVEL_PBT_OUT, .RIG_LEVEL_CWPITCH,
   .RIG_LEVEL_KEYSPD, .RIG_LEVEL_NOTCHF, .RIG_LEVEL_COMP, .RIG_LEVEL_AGC,
   .RIG_LEVEL_BKINDL, .RIG_LEVEL_BALANCE, .RIG_LEVEL_VOXGAIN,
   .RIG_LEVEL_VOXDELAY, .RIG_LEVEL_ANTIVOX, .RIG_LEVEL_STRENGTH,
   .RIG_LEVEL_RAWSTR, .RIG_LEVEL_SWR, .RIG_LEVEL_ALC,
   .RIG_LEVEL_RFPOWER_METER, .RIG_LEVEL_COMP_METER, .RIG_LEVEL_VD_METER,
   .RIG_LEVEL_ID_METER, .RIG_LEVEL_TEMP_METER]

/-- Decoding ladder of `NodeHamLib::SetFunction` / `GetFunction`
(hamlib.cpp:3057); `none` stands for the `Invalid function type` throw. -/
def parseFuncName (s : String) : Option func_t :=
  if s = "FAGC" then some .RIG_FUNC_FAGC
  else if s = "NB" then some .RIG_FUNC_NB
  else if s = "COMP" then some .RIG_FUNC_COMP
  else if s = "VOX" then some .RIG_FUNC_VOX
  else if s = "TONE" then some .RIG_FUNC_TONE
  else if s = "TSQL" then some .RIG_FUNC_TSQL
  else if s = "SBKIN" then some .RIG_FUNC_SBKIN
  else if s = "FBKIN" then some .RIG_FUNC_FBKIN
  else if s = "ANF" then some .RIG_FUNC_ANF
  else if s = "NR" then some .RIG_FUNC_NR
  else if s = "AIP" then some .RIG_FUNC_AIP
  else if s = "APF" then some .RIG_FUNC_APF
  else if s = "TUNER" then some .RIG_FUNC_TUNER
  else if s = "XIT" then some .RIG_FUNC_XIT
  else if s = "RIT" then some .RIG_FUNC_RIT
  else if s = "LOCK" then some .RIG_FUNC_LOCK
  else if s = "MUTE" then some .RIG_FUNC_MUTE
  else if s = "VSC" then some .RIG_FUNC_VSC
  else if s = "REV" then some .RIG_FUNC_REV
  else if s = "SQL" then some .RIG_FUNC_SQL
  else if s = "ABM" then some .RIG_FUNC_ABM
  else if s = "BC" then some .RIG_FUNC_BC
  else if s = "MBC" then some .RIG_FUNC_MBC
  else if s = "AFC" then some .RIG_FUNC_AFC
  else if s = "SATMODE" then some .RIG_FUNC_SATMODE
  else if s = "SCOPE" then some .RIG_FUNC_SCOPE
  else if s = "RESUME" then some .RIG_FUNC_RESUME
  else if s = "TBURST" then some .RIG_FUNC_TBURST
  else none

/-- Function names as emitted by `GetSupportedFunctions` (hamlib.cpp:3217). -/
def funcName (f : func_t) : String :=
  match f with
  | .RIG_FUNC_FAGC => "FAGC"
  | .RIG_FUNC_NB => "NB"
  | .RIG_FUNC_COMP => "COMP"
  | .RIG_FUNC_VOX => "VOX"
  | .RIG_FUNC_TONE => "TONE"
  | .RIG_FUNC_TSQL => "TSQL"
  | .RIG_FUNC_SBKIN => "SBKIN"
  | .RIG_FUNC_FBKIN => "FBKIN"
  | .RIG_FUNC_ANF => "ANF"
  | .RIG_FUNC_NR => "NR"
  | .RIG_FUNC_AIP => "AIP"
  | .RIG_FUNC_APF => "APF"
  | .RIG_FUNC_TUNER => "TUNER"
  | .RIG_FUNC_XIT => "XIT"
  | .RIG_FUNC_RIT => "RIT"
  | .RIG_FUNC_LOCK => "LOCK"
  | .RIG_FUNC_MUTE => "MUTE"
  | .RIG_FUNC_VSC => "VSC"
  | .RIG_FUNC_REV => "REV"
  | .RIG_FUNC_SQL => "SQL"
  | .RIG_FUNC_ABM => "ABM"
  | .RIG_FUNC_BC => "BC"
  | .RIG_FUNC_MBC => "MBC"
  | .RIG_FUNC_AFC => "AFC"
  | .RIG_FUNC_SATMODE => "SATMODE"
  | .RIG_FUNC_SCOPE => "SCOPE"
  | .RIG_FUNC_RESUME => "RESUME"
  | .RIG_FUNC_TBURST => "TBURST"

/-- Decoding ladder of `NodeHamLib::StartScan` (hamlib.cpp:2828); `none`
stands for the `Invalid scan type` throw. -/
def parseScanName (s : String) : Option scan_t :=
  if s = "VFO" then some .RIG_SCAN_VFO
  else if s = "MEM" then some .RIG_SCAN_MEM
  else if s = "PROG" then some .RIG_SCAN_PROG
  else if s = "DELTA" then some .RIG_SCAN_DELTA
  else if s = "PRIO" then some .RIG_SCAN_PRIORITY
  else none

/-- Decoding ladder of `NodeHamLib::VfoOperation` (hamlib.cpp:3502); `none`
stands for the `Invalid VFO operation` throw. -/
def parseVfoOpName (s : String) : Option vfo_op_t :=
  if s = "CPY" then some .RIG_OP_CPY
  else if s = "XCHG" then some .RIG_OP_XCHG
  else if s = "FROM_VFO" then some .RIG_OP_FROM_VFO
  else if s = "TO_VFO" then some .RIG_OP_TO_VFO
  else if s = "MCL" then some .RIG_OP_MCL
  else if s = "UP" then some .RIG_OP_UP
  else if s = "DOWN" then some .RIG_OP_DOWN
  else if s = "BAND_UP" then some .RIG_OP_BAND_UP
  else if s = "BAND_DOWN" then some .RIG_OP_BAND_DOWN
  else if s = "LEFT" then some .RIG_OP_LEFT
  else if s = "RIGHT" then some .RIG_OP_RIGHT
  else if s = "TUNE" then some .RIG_OP_TUNE
  else if s = "TOGGLE" then some .RIG_OP_TOGGLE
  else none

/-- Decoding ladder of `NodeHamLib::Reset` (hamlib.cpp:5369); `none` stands
for the `Invalid reset type` throw. -/
def parseResetName (s : String) : Option reset_t :=
  if s = "NONE" then some .RIG_RESET_NONE
  else if s = "SOFT" then some .RIG_RESET_SOFT
  else if s = "MCALL" then some .RIG_RESET_MCALL
  else if s = "MASTER" then some .RIG_RESET_MASTER
  else if s = "VFO" then some .RIG_RESET_VFO
  else none

/-- An async worker instance as constructed by a dispatcher: one constructor
per `*AsyncWorker` class, carrying the validated parameters the dispatcher
passed to the worker constructor. -/
inductive Worker where
  | openWorker
  | closeWorker
  | destroyWorker
  | setFrequency (freq : Int) (vfo : vfo_t)
  | getFrequency (vfo : vfo_t)
  | setMode (mode : rmode_t) (width : pbwidth_t) (vfo : vfo_t)
  | setVfo (vfo : vfo_t)
  | getVfo
  | getMemoryChannel (channel_num : Int) (read_only : Bool)
  | setSplit (rx_vfo : vfo_t) (split : split_t) (tx_vfo : vfo_t)
  | setLevel (level : level_t) (value : Int)
  | setFunction (func : func_t) (status : Int)
  | startScan (scan : scan_t) (channel : Int)
  | vfoOp (op : vfo_op_t)
  | setParm (parm : parm_t) (value : Int)
  | getParm (parm : parm_t)
  | getRepeaterShift (vfo : vfo_t)
  | resetWorker (level : reset_t)
  | setPttType (ptt_type : String)
  | getPttType
  | setDcdType (dcd_type : String)
  | getDcdType
  deriving DecidableEq, Repr

/-- A value a worker resolves its promise with (the shapes produced by the
embedded workers; object shapes list exactly the fields the source sets, with
`Option` for fields set conditionally). -/
inductive JsResult where
  | num (n : Int)
  | str (s : String)
  | strArray (xs : List String)
  | memChannelObj (channelNumber : Int) (frequency : Int) (mode : Option String)
      (bandwidth : Int) (description : Option String) (txFrequency : Option Int)
      (ctcssTone : Option Int)
  deriving DecidableEq, Repr

/-- Final state of a promise. -/
inductive Settlement where
  | resolve (v : JsResult)
  | reject (msg : String)
  deriving DecidableEq, Repr

/-- Result of a public dispatcher method: a synchronous JavaScript exception,
a queued worker whose promise was returned, a direct (non-promise) value, or a
dereference of the null device handle (undefined behavior in the C++). -/
inductive DispatchResult where
  | thrown (msg : String)
  | queued (w : Worker)
  | value (v : JsResult)
  | nullDeref
  deriving DecidableEq, Repr

/-- Outcome of a worker's `Execute` phase: the fields of `HamLibAsyncWorker`
after `Execute` returns, the hamlib invocations it performed, and the
instance state it left behind. -/
structure ExecOut where
  result_code : Int
  error_message : String
  calls : List HwCall
  post : RigState
  deriving DecidableEq, Repr

/-- Outcome of `CHECK_RIG_VALID()` failing (hamlib.cpp:19): `Execute` returns
early with `-RIG_EINVAL` and the fixed message, without touching hamlib. -/
def execCheckFail (st : RigState) : ExecOut :=
  { result_code := -RIG_EINVAL,
    error_message := "RIG is not initialized or has been destroyed",
    calls := [], post := st }

/-- The `Execute` body shared by the plain set-style workers: one hamlib call,
error text from `rigerror` on non-success, no state change. -/
def execSimple (st : RigState) (call : HwCall) (hw : HwLib) : ExecOut :=
  if !st.rigPresent then execCheckFail st
  else
    let code := hw.status call
    { result_code := code,
      error_message := if code ≠ RIG_OK then rigerror code else "",
      calls := [call], post := st }

/-- A completed worker: its `Execute` outcome plus the settlement its
completion handler (`OnOK`) performed on the deferred promise. -/
structure WorkerRun where
  exec : ExecOut
  settle : Settlement
  deriving DecidableEq, Repr

/-- The `OnOK` body shared by the numeric-resolving workers
(`if (result_code_ != RIG_OK && !error_message_.empty()) reject else
resolve(result_code_)`). -/
def onOKNumeric (ex : ExecOut) : Settlement :=
  if ex.result_code ≠ RIG_OK ∧ ex.error_message ≠ "" then .reject ex.error_message
  else .resolve (.num ex.result_code)

/-- The `OnOK` body shared by the getter workers that resolve an out-value on
success and reject the diagnostic otherwise. -/
def onOKValue (ex : ExecOut) (v : JsResult) : Settlement :=
  if ex.result_code ≠ RIG_OK ∧ ex.error_message ≠ "" then .reject ex.error_message
  else .resolve v

/-- The object `GetMemoryChannelAsyncWorker::OnOK` builds from the channel
structure (hamlib.cpp:469); note it is built and resolved unconditionally. -/
def memChannelResolve (chan : ChannelData) : JsResult :=
  .memChannelObj chan.channel_num chan.freq
    (if chan.mode ≠ .RIG_MODE_NONE then some (rig_strrmode chan.mode) else none)
    chan.width
    (if chan.channel_desc ≠ "" then some chan.channel_desc else none)
    (if chan.split = .RIG_SPLIT_ON then some chan.tx_freq else none)
    (if chan.ctcss_tone ≠ 0 then some chan.ctcss_tone else none)

/-- The error-message switch of `GetVfoAsyncWorker::Execute` (hamlib.cpp:892):
a C `switch` on the (negative) result code whose positive `case` labels for
`RIG_EIO`/`RIG_ETIMEOUT`/`RIG_EPROTO` are unreachable, so only `-11` and the
default branch fire in practice. -/
def getVfoErrMsg (code : Int) : String :=
  if code = RIG_ENAVAIL ∨ code = -11 then "VFO query not supported by this radio"
  else if code = RIG_EIO then "I/O error during VFO query"
  else if code = RIG_ETIMEOUT then "Timeout during VFO query"
  else if code = RIG_EPROTO then "Protocol error during VFO query"
  else "VFO query failed with code " ++ toString code

/-- Run one async worker to completion against an instance state and the
hamlib oracle: the `Execute` phase (on the worker thread) followed by the
completion handler settling the promise. Each branch transliterates the
corresponding `*AsyncWorker` class. -/
def workerRun (w : Worker) (st : RigState) (hw : HwLib) : WorkerRun :=
  match w with
  | .openWorker =>
    if !st.rigPresent then
      { exec := execCheckFail st, settle := onOKNumeric (execCheckFail st) }
    else
      let code := hw.status .rig_open
      if code ≠ RIG_OK then
        let ex : ExecOut := { result_code := code, error_message := rigerror code,
                              calls := [.rig_open], post := st }
        { exec := ex, settle := onOKNumeric ex }
      else
        let ex : ExecOut := { result_code := code, error_message := "",
                              calls := [.rig_open, .rig_set_freq_callback,
                                        .rig_set_ptt_callback, .rig_set_trn],
                              post := { st with rig_is_open := true } }
        { exec := ex, settle := onOKNumeric ex }
  | .closeWorker =>
    if !st.rigPresent then
      { exec := execCheckFail st, settle := onOKNumeric (execCheckFail st) }
    else if !st.rig_is_open then
      let ex : ExecOut := { result_code := RIG_OK, error_message := "",
                            calls := [], post := st }
      { exec := ex, settle := onOKNumeric ex }
    else
      let code := hw.status .rig_close
      if code ≠ RIG_OK then
        let ex : ExecOut := { result_code := code, error_message := rigerror code,
                              calls := [.rig_close], post := st }
        { exec := ex, settle := onOKNumeric ex }
      else
        let ex : ExecOut := { result_code := code, error_message := "",
                              calls := [.rig_close],
                              post := { st with rig_is_open := false } }
        { exec := ex, settle := onOKNumeric ex }
  | .destroyWorker =>
    if !st.rigPresent then
      { exec := execCheckFail st, settle := onOKNumeric (execCheckFail st) }
    else
      let code := hw.status .rig_cleanup
      if code ≠ RIG_OK then
        let ex : ExecOut := { result_code := code, error_message := rigerror code,
                              calls := [.rig_cleanup], post := st }
        { exec := ex, settle := onOKNumeric ex }
      else
        let ex : ExecOut := { result_code := code, error_message := "",
                              calls := [.rig_cleanup],
                              post := { st with rig_is_open := false,
                                                rigPresent := false } }
        { exec := ex, settle := onOKNumeric ex }
  | .setFrequency freq vfo =>
    let ex := execSimple st (.rig_set_freq vfo freq) hw
    { exec := ex, settle := onOKNumeric ex }
  | .getFrequency vfo =>
    let ex := execSimple st (.rig_get_freq vfo) hw
    { exec := ex, settle := onOKValue ex (.num hw.freqOut) }
  | .setMode mode width vfo =>
    let ex := execSimple st (.rig_set_mode vfo mode width) hw
    { exec := ex, settle := onOKNumeric ex }
  | .setVfo vfo =>
    let ex := execSimple st (.rig_set_vfo vfo) hw
    { exec := ex, settle := onOKNumeric ex }
  | .getVfo =>
    if !st.rigPresent then
      { exec := execCheckFail st,
        settle := .reject (execCheckFail st).error_message }
    else
      let code := hw.status .rig_get_vfo
      if code ≠ RIG_OK then
        let ex : ExecOut := { result_code := code,
                              error_message := getVfoErrMsg code,
                              calls := [.rig_get_vfo], post := st }
        { exec := ex, settle := .reject ex.error_message }
      else
        let ex : ExecOut := { result_code := code, error_message := "",
                              calls := [.rig_get_vfo], post := st }
        { exec := ex, settle := .resolve (.str (vfoDisplayName hw.vfoOut)) }
  | .getMemoryChannel channel_num read_only =>
    if !st.rigPresent then
      { exec := execCheckFail st, settle := .resolve (memChannelResolve zeroChannel) }
    else
      let code := hw.status (.rig_get_channel channel_num read_only)
      let chanFinal := if code = RIG_OK then hw.chanOut
                       else { zeroChannel with channel_num := channel_num }
      let ex : ExecOut := { result_code := code,
                            error_message := if code ≠ RIG_OK then rigerror code else "",
                            calls := [.rig_get_channel channel_num read_only],
                            post := st }
      { exec := ex, settle := .resolve (memChannelResolve chanFinal) }
  | .setSplit rx_vfo split tx_vfo =>
    let ex := execSimple st (.rig_set_split_vfo rx_vfo split tx_vfo) hw
    { exec := ex, settle := onOKNumeric ex }
  | .setLevel level value =>
    let ex := execSimple st (.rig_set_level .RIG_VFO_CURR level value) hw
    { exec := ex, settle := onOKNumeric ex }
  | .setFunction func status =>
    let ex := execSimple st (.rig_set_func .RIG_VFO_CURR func status) hw
    { exec := ex, settle := onOKNumeric ex }
  | .startScan scan channel =>
    let ex := execSimple st (.rig_scan .RIG_VFO_CURR scan channel) hw
    { exec := ex, settle := onOKNumeric ex }
  | .vfoOp op =>
    let ex := execSimple st (.rig_vfo_op .RIG_VFO_CURR op) hw
    { exec := ex, settle := onOKNumeric ex }
  | .setParm parm value =>
    let ex := execSimple st (.rig_set_parm parm value) hw
    { exec := ex, settle := onOKNumeric ex }
  | .getParm parm =>
    let ex := execSimple st (.rig_get_parm parm) hw
    let parmFinal := if ex.result_code = RIG_OK ∧ st.rigPresent then hw.parmOut else 0
    { exec := ex, settle := onOKValue ex (.num parmFinal) }
  | .getRepeaterShift vfo =>
    if !st.rigPresent then
      { exec := execCheckFail st,
        settle := .resolve (.str (rig_strptrshift .RIG_RPT_SHIFT_NONE)) }
    else
      let code := hw.status (.rig_get_rptr_shift vfo)
      let shiftFinal := if code = RIG_OK then hw.shiftOut else .RIG_RPT_SHIFT_NONE
      let ex : ExecOut := { result_code := code,
                            error_message := if code ≠ RIG_OK then rigerror code else "",
                            calls := [.rig_get_rptr_shift vfo], post := st }
      { exec := ex, settle := .resolve (.str (rig_strptrshift shiftFinal)) }
  | .resetWorker level =>
    let ex := execSimple st (.rig_reset level) hw
    { exec := ex, settle := onOKNumeric ex }
  | .setPttType s =>
    if !st.rigPresent then
      { exec := execCheckFail st, settle := onOKNumeric (execCheckFail st) }
    else
      match parsePttType s with
      | none =>
        let ex : ExecOut := { result_code := -RIG_EINVAL,
                              error_message := "Invalid PTT type",
                              calls := [], post := st }
        { exec := ex, settle := onOKNumeric ex }
      | some t =>
        let ex : ExecOut := { result_code := RIG_OK, error_message := "",
                              calls := [], post := { st with pttPortType := t } }
        { exec := ex, settle := onOKNumeric ex }
  | .getPttType =>
    if !st.rigPresent then
      { exec := execCheckFail st, settle := .reject (execCheckFail st).error_message }
    else
      let ex : ExecOut := { result_code := RIG_OK, error_message := "",
                            calls := [], post := st }
      { exec := ex, settle := .resolve (.str (pttTypeName st.pttPortType)) }
  | .setDcdType s =>
    if !st.rigPresent then
      { exec := execCheckFail st, settle := onOKNumeric (execCheckFail st) }
    else
      match parseDcdType s with
      | none =>
        let ex : ExecOut := { result_code := -RIG_EINVAL,
                              error_message := "Invalid DCD type",
                              calls := [], post := st }
        { exec := ex, settle := onOKNumeric ex }
      | some t =>
        let ex : ExecOut := { result_code := RIG_OK, error_message := "",
                              calls := [], post := { st with dcdPortType := t } }
        { exec := ex, settle := onOKNumeric ex }
  | .getDcdType =>
    if !st.rigPresent then
      { exec := execCheckFail st, settle := .reject (execCheckFail st).error_message }
    else
      let ex : ExecOut := { result_code := RIG_OK, error_message := "",
                            calls := [], post := st }
      { exec := ex, settle := .resolve (.str (dcdTypeName st.dcdPortType)) }

namespace NodeHamLib

/-- `NodeHamLib::Open` (hamlib.cpp:2309): queues the open worker
unconditionally. -/
def Open (_st : RigState) (_args : List JSVal) : DispatchResult :=
  .queued .openWorker

/-- `NodeHamLib::SetVFO` (hamlib.cpp:2318). -/
def SetVFO (st : RigState) (args : List JSVal) : DispatchResult :=
  if !st.rig_is_open then .thrown ("Rig is not open!")
  else if args.length < 1 then .thrown ("Must specify VFO")
  else if !(argIsString args 0) then .thrown ("Must specify VFO-A or VFO-B as a string")
  else
    let name := argString args 0
    if name = "VFO-A" then .queued (.setVfo .RIG_VFO_A)
    else if name = "VFO-B" then .queued (.setVfo .RIG_VFO_B)
    else .thrown ("Invalid VFO name")

/-- `NodeHamLib::SetFrequency` (hamlib.cpp:2358). -/
def SetFrequency (st : RigState) (args : List JSVal) : DispatchResult :=
  if !st.rig_is_open then .thrown ("Rig is not open!")
  else if args.length < 1 then .thrown ("Must specify frequency")
  else if !(argIsNumber args 0) then .thrown ("Frequency must be specified as a number")
  else
    let freq := argNum args 0
    if freq < 1000 ∨ freq > 10000000000 then
      .thrown ("Frequency out of range (1 kHz - 10 GHz)")
    else
      let vfo :=
        if args.length ≥ 2 ∧ argIsString args 1 then
          let vfostr := argString args 1
          if vfostr = "VFO-A" then vfo_t.RIG_VFO_A
          else if vfostr = "VFO-B" then vfo_t.RIG_VFO_B
          else vfo_t.RIG_VFO_CURR
        else vfo_t.RIG_VFO_CURR
      .queued (.setFrequency freq vfo)

/-- `NodeHamLib::SetMode` (hamlib.cpp:2405), including the second-argument
disambiguation between the bandwidth keywords and a VFO name and the
unconditional third-argument VFO override. -/
def SetMode (st : RigState) (args : List JSVal) : DispatchResult :=
  if !st.rig_is_open then .thrown ("Rig is not open!")
  else if args.length < 1 then .thrown ("Must specify mode")
  else if !(argIsString args 0) then .thrown ("Must specify mode as string")
  else
    let modestr := argString args 0
    let mode := rig_parse_mode modestr
    if mode = .RIG_MODE_NONE then .thrown ("Invalid mode: " ++ modestr)
    else
      let bwAndVfo : pbwidth_t × vfo_t :=
        if args.length ≥ 2 ∧ argIsString args 1 then
          let bandstr := argString args 1
          if bandstr = "narrow" then (rig_passband_narrow mode, .RIG_VFO_CURR)
          else if bandstr = "wide" then (rig_passband_wide mode, .RIG_VFO_CURR)
          else (.RIG_PASSBAND_NORMAL, parseVfoParameter args 1 .RIG_VFO_CURR)
        else (.RIG_PASSBAND_NORMAL, .RIG_VFO_CURR)
      let vfo := if args.length ≥ 3 then parseVfoParameter args 2 .RIG_VFO_CURR
                 else bwAndVfo.2
      .queued (.setMode mode bwAndVfo.1 vfo)

/-- `NodeHamLib::GetVFO` (hamlib.cpp:2491). -/
def GetVFO (st : RigState) (_args : List JSVal) : DispatchResult :=
  if !st.rig_is_open then .thrown ("Rig is not open!")
  else .queued .getVfo

/-- `NodeHamLib::GetFrequency` (hamlib.cpp:2506), with its inline optional-VFO
ladder that silently keeps `RIG_VFO_CURR` on an unrecognized name. -/
def GetFrequency (st : RigState) (args : List JSVal) : DispatchResult :=
  if !st.rig_is_open then .thrown ("Rig is not open!")
  else
    let vfo :=
      if args.length ≥ 1 ∧ argIsString args 0 then
        let vfostr := argString args 0
        if vfostr = "VFO-A" then vfo_t.RIG_VFO_A
        else if vfostr = "VFO-B" then vfo_t.RIG_VFO_B
        else vfo_t.RIG_VFO_CURR
      else vfo_t.RIG_VFO_CURR
    .queued (.getFrequency vfo)

/-- `NodeHamLib::Close` (hamlib.cpp:2570): guarded by the open flag before the
worker is ever queued. -/
def Close (st : RigState) (_args : List JSVal) : DispatchResult :=
  if !st.rig_is_open then .thrown ("Rig is not open!")
  else .queued .closeWorker

/-- `NodeHamLib::Destroy` (hamlib.cpp:2585): queues the destroy worker
unconditionally. -/
def Destroy (_st : RigState) (_args : List JSVal) : DispatchResult :=
  .queued .destroyWorker

/-- `NodeHamLib::GetMemoryChannel` (hamlib.cpp:2678). -/
def GetMemoryChannel (st : RigState) (args : List JSVal) : DispatchResult :=
  if !st.rig_is_open then .thrown ("Rig is not open!")
  else if args.length < 1 ∨ !(argIsNumber args 0) then
    .thrown ("Expected (channelNumber: number) or (channelNumber: number, readOnly: boolean)")
  else
    let channel_num := argNum args 0
    let read_only := if args.length ≥ 2 ∧ argIsBoolean args 1 then argBool args 1 else true
    .queued (.getMemoryChannel channel_num read_only)

/-- `NodeHamLib::StartScan` (hamlib.cpp:2812). -/
def StartScan (st : RigState) (args : List JSVal) : DispatchResult :=
  if !st.rig_is_open then .thrown ("Rig is not open!")
  else if args.length < 1 ∨ !(argIsString args 0) then
    .thrown ("Expected scan type (VFO, MEM, PROG, etc.)")
  else
    match parseScanName (argString args 0) with
    | none => .thrown ("Invalid scan type")
    | some scanType =>
      let channel := if args.length > 1 ∧ argIsNumber args 1 then argNum args 1 else 0
      .queued (.startScan scanType channel)

/-- `NodeHamLib::SetLevel` (hamlib.cpp:2867). -/
def SetLevel (st : RigState) (args : List JSVal) : DispatchResult :=
  if !st.rig_is_open then .thrown ("Rig is not open!")
  else if args.length < 2 ∨ !(argIsString args 0) ∨ !(argIsNumber args 1) then
    .thrown ("Expected (levelType: string, value: number)")
  else
    match parseLevelName (argString args 0) with
    | none => .thrown ("Invalid level type")
    | some levelType => .queued (.setLevel levelType (argNum args 1))

/-- `NodeHamLib::GetSupportedLevels` (hamlib.cpp:2996): reads
`my_rig->caps` directly, with no open-state or null check; when the handle
has been destroyed this dereferences a null pointer. -/
def GetSupportedLevels (st : RigState) (caps : RigCaps)
    (_args : List JSVal) : DispatchResult :=
  if !st.rigPresent then .nullDeref
  else
    .value (.strArray
      ((levelOrder.filter
          (fun l => caps.has_get_level l || caps.has_set_level l)).map levelName))

/-- `NodeHamLib::SetFunction` (hamlib.cpp:3039). -/
def SetFunction (st : RigState) (args : List JSVal) : DispatchResult :=
  if !st.rig_is_open then .thrown ("Rig is not open!")
  else if args.length < 2 ∨ !(argIsString args 0) ∨ !(argIsBoolean args 1) then
    .thrown ("Expected (functionType: string, enable: boolean)")
  else
    match parseFuncName (argString args 0) with
    | none => .thrown ("Invalid function type")
    | some funcType =>
      .queued (.setFunction funcType (if argBool args 1 then 1 else 0))

/-- `NodeHamLib::SetSplit` (hamlib.cpp:3395): the receive VFO is taken from
`info[1]` and the transmit VFO from `info[2]`, with defaults
`RIG_VFO_CURR` / `RIG_VFO_B`. -/
def SetSplit (st : RigState) (args : List JSVal) : DispatchResult :=
  if !st.rig_is_open then .thrown ("Rig is not open!")
  else if args.length < 1 ∨ !(argIsBoolean args 0) then
    .thrown ("Expected boolean split enable state")
  else
    let split := if argBool args 0 then split_t.RIG_SPLIT_ON else split_t.RIG_SPLIT_OFF
    if args.length = 2 ∧ argIsString args 1 then
      let vfoStr := argString args 1
      let rx_vfo := if vfoStr = "VFO-A" then vfo_t.RIG_VFO_A
                    else if vfoStr = "VFO-B" then vfo_t.RIG_VFO_B
                    else vfo_t.RIG_VFO_CURR
      .queued (.setSplit rx_vfo split .RIG_VFO_B)
    else if args.length = 3 ∧ argIsString args 1 ∧ argIsString args 2 then
      let rxVfoStr := argString args 1
      let txVfoStr := argString args 2
      let rx_vfo := if rxVfoStr = "VFO-A" then vfo_t.RIG_VFO_A
                    else if rxVfoStr = "VFO-B" then vfo_t.RIG_VFO_B
                    else vfo_t.RIG_VFO_CURR
      let tx_vfo := if txVfoStr = "VFO-A" then vfo_t.RIG_VFO_A
                    else if txVfoStr = "VFO-B" then vfo_t.RIG_VFO_B
                    else vfo_t.RIG_VFO_B
      .queued (.setSplit rx_vfo split tx_vfo)
    else .queued (.setSplit .RIG_VFO_CURR split .RIG_VFO_B)

/-- `NodeHamLib::VfoOperation` (hamlib.cpp:3486). -/
def VfoOperation (st : RigState) (args : List JSVal) : DispatchResult :=
  if !st.rig_is_open then .thrown ("Rig is not open!")
  else if args.length < 1 ∨ !(argIsString args 0) then
    .thrown ("Expected VFO operation string")
  else
    match parseVfoOpName (argString args 0) with
    | none => .thrown ("Invalid VFO operation")
    | some op => .queued (.vfoOp op)

/-- `NodeHamLib::SetPttType` (hamlib.cpp:3882): no open-state check; the name
is validated inside the worker. -/
def SetPttType (_st : RigState) (args : List JSVal) : DispatchResult :=
  if args.length < 1 ∨ !(argIsString args 0) then
    .thrown ("Expected PTT type as string")
  else .queued (.setPttType (argString args 0))

/-- `NodeHamLib::GetPttType` (hamlib.cpp:3898): no open-state check. -/
def GetPttType (_st : RigState) (_args : List JSVal) : DispatchResult :=
  .queued .getPttType

/-- `NodeHamLib::SetDcdType` (hamlib.cpp:3907): no open-state check. -/
def SetDcdType (_st : RigState) (args : List JSVal) : DispatchResult :=
  if args.length < 1 ∨ !(argIsString args 0) then
    .thrown ("Expected DCD type as string")
  else .queued (.setDcdType (argString args 0))

/-- `NodeHamLib::GetDcdType` (hamlib.cpp:3923): no open-state check. -/
def GetDcdType (_st : RigState) (_args : List JSVal) : DispatchResult :=
  .queued .getDcdType

/-- `NodeHamLib::GetRepeaterShift` (hamlib.cpp:4110): no open-state check. -/
def GetRepeaterShift (_st : RigState) (args : List JSVal) : DispatchResult :=
  .queued (.getRepeaterShift (parseVfoParameter args 0 .RIG_VFO_CURR))

/-- `NodeHamLib::SetParm` (hamlib.cpp:5059): no open-state check; validates
only arity, types and the parameter name. -/
def SetParm (_st : RigState) (args : List JSVal) : DispatchResult :=
  if args.length < 2 ∨ !(argIsString args 0) ∨ !(argIsNumber args 1) then
    .thrown ("Expected parameter name as string and value as number")
  else
    let parm_str := argString args 0
    match rig_parse_parm parm_str with
    | none => .thrown ("Invalid parameter name: " ++ parm_str)
    | some parm => .queued (.setParm parm (argNum args 1))

/-- `NodeHamLib::GetParm` (hamlib.cpp:5083): no open-state check. -/
def GetParm (_st : RigState) (args : List JSVal) : DispatchResult :=
  if args.length < 1 ∨ !(argIsString args 0) then
    .thrown ("Expected parameter name as string")
  else
    let parm_str := argString args 0
    match rig_parse_parm parm_str with
    | none => .thrown ("Invalid parameter name: " ++ parm_str)
    | some parm => .queued (.getParm parm)

/-- `NodeHamLib::Reset` (hamlib.cpp:5362): defaults to `RIG_RESET_SOFT` when
the first argument is absent or not a string; no open-state check. -/
def Reset (_st : RigState) (args : List JSVal) : DispatchResult :=
  if args.length > 0 ∧ argIsString args 0 then
    match parseResetName (argString args 0) with
    | some r => .queued (.resetWorker r)
    | none =>
      .thrown ("Invalid reset type: " ++ argString args 0 ++
               " (valid: NONE, SOFT, VFO, MCALL, MASTER)")
  else .queued (.resetWorker .RIG_RESET_SOFT)

end NodeHamLib

/-- A unit of work sitting in the shared worker-thread pool: the worker, the
`NodeHamLib` instance (connection) it belongs to, and a submission identifier.
Every dispatcher hands its worker straight to `Napi::AsyncWorker::Queue()`
(the shared libuv pool); the binding contains no per-connection lock or
queue. -/
structure Job where
  conn : Nat
  jid : Nat
  work : Worker
  deriving DecidableEq, Repr

/-- Observable scheduling events of the pool: a job's blocking `Execute`
beginning on some pool thread, or completing. -/
inductive PoolEvent where
  | start (j : Job)
  | finish (j : Job)
  deriving DecidableEq, Repr

/-- Pool state: the FIFO backlog of submitted jobs and the multiset of jobs
whose `Execute` is currently running. -/
structure PoolState where
  pending : List Job
  running : List Job
  deriving DecidableEq, Repr

/-- Operational semantics of the shared worker pool with `k` threads,
modelled from the documented behavior of the external thread pool the binding
queues into: an idle thread picks up the head of the FIFO backlog (so at most
`k` jobs run at once), and any running job may complete. Nothing in the
binding constrains two jobs of the same connection from running together. -/
inductive PoolStep (k : Nat) : PoolState → PoolEvent → PoolState → Prop where
  | start (j : Job) (pending running : List Job) :
      running.length < k →
      PoolStep k ⟨j :: pending, running⟩ (.start j) ⟨pending, j :: running⟩
  | finish (j : Job) (pending running : List Job) :
      j ∈ running →
      PoolStep k ⟨pending, running⟩ (.finish j) ⟨pending, running.erase j⟩

/-- Reflexive-transitive closure of `PoolStep`, collecting the event trace. -/
inductive PoolTrace (k : Nat) : PoolState → List PoolEvent → PoolState → Prop where
  | nil (s : PoolState) : PoolTrace k s [] s
  | cons {s₁ s₂ s₃ : PoolState} {e : PoolEvent} {evs : List PoolEvent} :
      PoolStep k s₁ e s₂ → PoolTrace k s₂ evs s₃ → PoolTrace k s₁ (e :: evs) s₃

/-- The jobs whose `Execute` began during a trace, in begin order. -/
def startedJobs (evs : List PoolEvent) : List Job :=
  evs.filterMap (fun e => match e with | .start j => some j | .finish _ => none)

/-- Instance state of a constructed, opened rig. -/
def openSt : RigState :=
  { rigPresent := true, rig_is_open := true,
    pttPortType := .RIG_PTT_RIG, dcdPortType := .RIG_DCD_RIG }

/-- Instance state of a constructed rig that is not (or no longer) open. -/
def closedSt : RigState :=
  { rigPresent := true, rig_is_open := false,
    pttPortType := .RIG_PTT_RIG, dcdPortType := .RIG_DCD_RIG }

/-- Instance state after a successful destroy: the handle is nulled. -/
def destroyedSt : RigState :=
  { rigPresent := false, rig_is_open := false,
    pttPortType := .RIG_PTT_RIG, dcdPortType := .RIG_DCD_RIG }

/-- Hardware oracle on which every invocation succeeds. -/
def okHw : HwLib :=
  { status := fun _ => RIG_OK, freqOut := 14074000, vfoOut := .RIG_VFO_A,
    chanOut := { channel_num := 5, freq := 145500000, mode := .RIG_MODE_FM,
                 width := 12500, channel_desc := "CH5", split := .RIG_SPLIT_OFF,
                 tx_freq := 0, ctcss_tone := 0 },
    shiftOut := .RIG_RPT_SHIFT_PLUS, parmOut := 3 }

/-- Hardware oracle on which every invocation fails with `-RIG_EIO`. -/
def errHw : HwLib :=
  { status := fun _ => - RIG_EIO, freqOut := 0, vfoOut := .RIG_VFO_CURR,
    chanOut := zeroChannel, shiftOut := .RIG_RPT_SHIFT_NONE, parmOut := 0 }

/-- Capability record advertising every level bit. -/
def sampleCaps : RigCaps :=
  { has_get_level := fun _ => true, has_set_level := fun _ => true }

/-- The VFO names accepted by `SetVFO`. -/
def vfoNames : List String := ["VFO-A", "VFO-B"]

/-- The PTT type names of the `SetPttType` worker ladder. -/
def pttNames : List String :=
  ["RIG", "DTR", "RTS", "PARALLEL", "CM108", "GPIO", "GPION", "NONE"]

/-- The DCD type names of the `SetDcdType` worker ladder. -/
def dcdNames : List String :=
  ["RIG", "DSR", "CTS", "CD", "PARALLEL", "CM108", "GPIO", "GPION", "NONE"]

/-- The level names accepted by `SetLevel`. -/
def levelSetNames : List String :=
  ["AF", "RF", "SQL", "RFPOWER", "MICGAIN", "IF", "APF", "NR", "PBT_IN",
   "PBT_OUT", "CWPITCH", "KEYSPD", "NOTCHF", "COMP", "AGC", "BKINDL",
   "BALANCE", "VOXGAIN", "VOXDELAY", "ANTIVOX"]

/-- The function names accepted by `SetFunction` / `GetFunction`. -/
def funcNames : List String :=
  ["FAGC", "NB", "COMP", "VOX", "TONE", "TSQL", "SBKIN", "FBKIN", "ANF",
   "NR", "AIP", "APF", "TUNER", "XIT", "RIT", "LOCK", "MUTE", "VSC", "REV",
   "SQL", "ABM", "BC", "MBC", "AFC", "SATMODE", "SCOPE", "RESUME", "TBURST"]

/-- The scan type names accepted by `StartScan`. -/
def scanNames : List String := ["VFO", "MEM", "PROG", "DELTA", "PRIO"]

/-- The VFO operation names accepted by `VfoOperation`. -/
def vfoOpNames : List String :=
  ["CPY", "XCHG", "FROM_VFO", "TO_VFO", "MCL", "UP", "DOWN", "BAND_UP",
   "BAND_DOWN", "LEFT", "RIGHT", "TUNE", "TOGGLE"]

/-- The reset level names accepted by `Reset`. -/
def resetNames : List String := ["NONE", "SOFT", "MCALL", "MASTER", "VFO"]

/-- First of two commands submitted against the same connection. -/
def jobA : Job := { conn := 0, jid := 0, work := .setFrequency 14074000 .RIG_VFO_CURR }

/-- Second of two commands submitted against the same connection. -/
def jobB : Job := { conn := 0, jid := 1, work := .setFrequency 7000000 .RIG_VFO_CURR }

/-- A pool schedule, valid with two pool threads, in which the second
command's hardware invocation begins before the first one's ends. -/
def overlapTrace : List PoolEvent :=
  [.start jobA, .start jobB, .finish jobA, .finish jobB]

/-- A single job used to exercise the FIFO start-order property. -/
def jobW : Job := { conn := 1, jid := 0, work := .getPttType }

theorem rigerror_ne_empty (c : Int) : rigerror c ≠ "" := by
  intro h
  have hd : ("rigerror:" ++ toString c).data = ("" : String).data := congrArg String.data h
  rw [String.data_append] at hd
  simp at hd

theorem parseResetName_none_or_mem (s : String) :
    parseResetName s = none ∨ s ∈ resetNames := by
  by_cases hm : s ∈ resetNames
  · exact Or.inr hm
  · left
    simp only [resetNames, List.mem_cons, List.not_mem_nil, or_false, not_or] at hm
    obtain ⟨h1, h2, h3, h4, h5⟩ := hm
    simp [parseResetName, h1, h2, h3, h4, h5]

theorem parseScanName_none_or_mem (s : String) :
    parseScanName s = none ∨ s ∈ scanNames := by
  by_cases hm : s ∈ scanNames
  · exact Or.inr hm
  · left
    simp only [scanNames, List.mem_cons, List.not_mem_nil, or_false, not_or] at hm
    obtain ⟨h1, h2, h3, h4, h5⟩ := hm
    simp [parseScanName, h1, h2, h3, h4, h5]

theorem parseVfoOpName_none_or_mem (s : String) :
    parseVfoOpName s = none ∨ s ∈ vfoOpNames := by
  by_cases hm : s ∈ vfoOpNames
  · exact Or.inr hm
  · left
    simp only [vfoOpNames, List.mem_cons, List.not_mem_nil, or_false, not_or] at hm
    obtain ⟨h1, h2, h3, h4, h5, h6, h7, h8, h9, h10, h11, h12, h13⟩ := hm
    simp [parseVfoOpName, h1, h2, h3, h4, h5, h6, h7, h8, h9, h10, h11, h12, h13]

theorem parsePttType_none_or_mem (s : String) :
    parsePttType s = none ∨ s ∈ pttNames := by
  by_cases hm : s ∈ pttNames
  · exact Or.inr hm
  · left
    simp only [pttNames, List.mem_cons, List.not_mem_nil, or_false, not_or] at hm
    obtain ⟨h1, h2, h3, h4, h5, h6, h7, h8⟩ := hm
    simp [parsePttType, h1, h2, h3, h4, h5, h6, h7, h8]

theorem parseDcdType_none_or_mem (s : String) :
    parseDcdType s = none ∨ s ∈ dcdNames := by
  by_cases hm : s ∈ dcdNames
  · exact Or.inr hm
  · left
    simp only [dcdNames, List.mem_cons, List.not_mem_nil, or_false, not_or] at hm
    obtain ⟨h1, h2, h3, h4, h5, h6, h7, h8, h9⟩ := hm
    simp [parseDcdType, h1, h2, h3, h4, h5, h6, h7, h8, h9]

theorem parseLevelName_none_or_mem (s : String) :
    parseLevelName s = none ∨ s ∈ levelSetNames := by
  by_cases hm : s ∈ levelSetNames
  · exact Or.inr hm
  · left
    simp only [levelSetNames, List.mem_cons, List.not_mem_nil, or_false, not_or] at hm
    obtain ⟨h1, h2, h3, h4, h5, h6, h7, h8, h9, h10, h11, h12, h13, h14, h15,
      h16, h17, h18, h19, h20⟩ := hm
    simp [parseLevelName, h1, h2, h3, h4, h5, h6, h7, h8, h9, h10, h11, h12,
      h13, h14, h15, h16, h17, h18, h19, h20]

theorem parseFuncName_none_or_mem (s : String) :
    parseFuncName s = none ∨ s ∈ funcNames := by
  by_cases hm : s ∈ funcNames
  · exact Or.inr hm
  · left
    simp only [funcNames, List.mem_cons, List.not_mem_nil, or_false, not_or] at hm
    obtain ⟨h1, h2, h3, h4, h5, h6, h7, h8, h9, h10, h11, h12, h13, h14, h15,
      h16, h17, h18, h19, h20, h21, h22, h23, h24, h25, h26, h27, h28⟩ := hm
    simp [parseFuncName, h1, h2, h3, h4, h5, h6, h7, h8, h9, h10, h11, h12,
      h13, h14, h15, h16, h17, h18, h19, h20, h21, h22, h23, h24, h25, h26,
      h27, h28]

/-- C4: `setSplit(true, "VFO-A", "VFO-B")` on an open connection builds the
split worker with receive-VFO `RIG_VFO_A` and transmit-VFO `RIG_VFO_B`, and
the resulting hamlib invocation is `rig_set_split_vfo` with the receive VFO
as its (second) VFO argument and the transmit VFO as its (fourth) tx-VFO
argument — the caller's second and third arguments are threaded through in
order, never swapped. -/
theorem c4_split_order :
    NodeHamLib.SetSplit openSt [JSVal.boolean true, JSVal.str "VFO-A", JSVal.str "VFO-B"]
      = .queued (.setSplit .RIG_VFO_A .RIG_SPLIT_ON .RIG_VFO_B) ∧
    (workerRun (.setSplit .RIG_VFO_A .RIG_SPLIT_ON .RIG_VFO_B) openSt okHw).exec.calls
      = [.rig_set_split_vfo .RIG_VFO_A .RIG_SPLIT_ON .RIG_VFO_B] ∧
    (workerRun (.setSplit .RIG_VFO_A .RIG_SPLIT_ON .RIG_VFO_B) openSt okHw).settle
      = .resolve (.num RIG_OK) := by
  refine ⟨by decide, by decide, by decide⟩

/-- C2: evaluation at the failing input — on an open connection with the
hamlib call failing with `-RIG_EIO`, the memory-channel getter fulfills with
a zero-filled channel object and the repeater-shift getter fulfills with the
default shift string, while an ordinary getter (`getFrequency`) rejects with
the library diagnostic for the same status. -/
theorem c2_bug_eval :
    (workerRun (.getMemoryChannel 5 true) openSt errHw).exec.result_code = - RIG_EIO ∧
    (workerRun (.getMemoryChannel 5 true) openSt errHw).settle
      = .resolve (.memChannelObj 5 0 none 0 none none none) ∧
    (workerRun (.getRepeaterShift .RIG_VFO_CURR) openSt errHw).exec.result_code = - RIG_EIO ∧
    (workerRun (.getRepeaterShift .RIG_VFO_CURR) openSt errHw).settle
      = .resolve (.str "None") ∧
    (workerRun (.getFrequency .RIG_VFO_CURR) openSt errHw).settle
      = .reject (rigerror (- RIG_EIO)) := by
  refine ⟨by decide, by decide, by decide, by decide, by decide⟩

/-- C1 counterexample: `setParm` requires the hardware but performs no
open-state check — on a closed (but initialized) connection it queues the
worker instead of throwing, and the worker then invokes `rig_set_parm`, so
the claim's universal guard property fails. -/
theorem c1_counterexample :
    NodeHamLib.SetParm closedSt [JSVal.str "BACKLIGHT", JSVal.num 1]
      = .queued (.setParm .RIG_PARM_BACKLIGHT 1) ∧
    (workerRun (.setParm .RIG_PARM_BACKLIGHT 1) closedSt okHw).exec.calls
      = [.rig_set_parm .RIG_PARM_BACKLIGHT 1] := by
  refine ⟨by decide, by decide⟩

/-- C1 amended: the dispatchers of the core operation group do fail fast with
the synchronous `Rig is not open!` state error whenever the connection is
closed (for every state and argument list, hence with no worker queued and no
hamlib invocation), but the serial-config/parameter/repeater/reset family
performs no open-state check: on a closed connection those operations queue
their workers, and the queued worker invokes the hamlib library. -/
theorem c1_amended :
    (∀ (st : RigState) (args : List JSVal), st.rig_is_open = false →
      NodeHamLib.SetVFO st args = .thrown ("Rig is not open!") ∧
      NodeHamLib.SetFrequency st args = .thrown ("Rig is not open!") ∧
      NodeHamLib.SetMode st args = .thrown ("Rig is not open!") ∧
      NodeHamLib.GetVFO st args = .thrown ("Rig is not open!") ∧
      NodeHamLib.GetFrequency st args = .thrown ("Rig is not open!") ∧
      NodeHamLib.Close st args = .thrown ("Rig is not open!") ∧
      NodeHamLib.GetMemoryChannel st args = .thrown ("Rig is not open!") ∧
      NodeHamLib.StartScan st args = .thrown ("Rig is not open!") ∧
      NodeHamLib.SetLevel st args = .thrown ("Rig is not open!") ∧
      NodeHamLib.SetFunction st args = .thrown ("Rig is not open!") ∧
      NodeHamLib.SetSplit st args = .thrown ("Rig is not open!") ∧
      NodeHamLib.VfoOperation st args = .thrown ("Rig is not open!")) ∧
    NodeHamLib.SetParm closedSt [JSVal.str "BEEP", JSVal.num 1]
      = .queued (.setParm .RIG_PARM_BEEP 1) ∧
    NodeHamLib.GetParm closedSt [JSVal.str "BEEP"] = .queued (.getParm .RIG_PARM_BEEP) ∧
    NodeHamLib.Reset closedSt [] = .queued (.resetWorker .RIG_RESET_SOFT) ∧
    NodeHamLib.GetRepeaterShift closedSt [] = .queued (.getRepeaterShift .RIG_VFO_CURR) ∧
    NodeHamLib.SetPttType closedSt [JSVal.str "RIG"] = .queued (.setPttType "RIG") ∧
    (workerRun (.getParm .RIG_PARM_BEEP) closedSt okHw).exec.calls
      = [.rig_get_parm .RIG_PARM_BEEP] := by
  refine ⟨?_, by decide, by decide, by decide, by decide, by decide, by decide⟩
  intro st args h
  refine ⟨?_, ?_, ?_, ?_, ?_, ?_, ?_, ?_, ?_, ?_, ?_, ?_⟩ <;>
    simp [NodeHamLib.SetVFO, NodeHamLib.SetFrequency, NodeHamLib.SetMode,
      NodeHamLib.GetVFO, NodeHamLib.GetFrequency, NodeHamLib.Close,
      NodeHamLib.GetMemoryChannel, NodeHamLib.StartScan, NodeHamLib.SetLevel,
      NodeHamLib.SetFunction, NodeHamLib.SetSplit, NodeHamLib.VfoOperation, h]

/-- C1 witness for the amended guard clause, at the closed state with an
empty argument list. -/
theorem c1_amended_witness :
    NodeHamLib.SetVFO closedSt [] = .thrown ("Rig is not open!") ∧
    NodeHamLib.SetFrequency closedSt [] = .thrown ("Rig is not open!") ∧
    NodeHamLib.SetMode closedSt [] = .thrown ("Rig is not open!") ∧
    NodeHamLib.GetVFO closedSt [] = .thrown ("Rig is not open!") ∧
    NodeHamLib.GetFrequency closedSt [] = .thrown ("Rig is not open!") ∧
    NodeHamLib.Close closedSt [] = .thrown ("Rig is not open!") ∧
    NodeHamLib.GetMemoryChannel closedSt [] = .thrown ("Rig is not open!") ∧
    NodeHamLib.StartScan closedSt [] = .thrown ("Rig is not open!") ∧
    NodeHamLib.SetLevel closedSt [] = .thrown ("Rig is not open!") ∧
    NodeHamLib.SetFunction closedSt [] = .thrown ("Rig is not open!") ∧
    NodeHamLib.SetSplit closedSt [] = .thrown ("Rig is not open!") ∧
    NodeHamLib.VfoOperation closedSt [] = .thrown ("Rig is not open!") :=
  c1_amended.1 closedSt [] rfl

/-- C3 counterexample: two sequential `close()` calls do not both succeed.
The first queues the close worker, which succeeds and transitions to the
closed state; the second `close()` is rejected synchronously by the
dispatcher's open-state guard (`Rig is not open!`) instead of succeeding. -/
theorem c3_counterexample :
    NodeHamLib.Close openSt [] = .queued .closeWorker ∧
    (workerRun .closeWorker openSt okHw).settle = .resolve (.num RIG_OK) ∧
    (workerRun .closeWorker openSt okHw).exec.post = closedSt ∧
    NodeHamLib.Close closedSt [] = .thrown ("Rig is not open!") := by
  refine ⟨by decide, by decide, by decide, by decide⟩

/-- C3 amended: the idempotent-success path exists only inside the close
worker — when a queued close worker observes an already-closed rig it
succeeds without invoking the hamlib close routine (for every oracle) — but
the dispatcher rejects a second sequential `close()` synchronously because
`isOpen` is already false. Destroy after close still performs the handle
cleanup (`rig_cleanup`) exactly once: it succeeds and nulls the handle, and a
repeated destroy performs no further hamlib call. -/
theorem c3_amended :
    (∀ hw : HwLib,
      (workerRun .closeWorker closedSt hw).exec.calls = [] ∧
      (workerRun .closeWorker closedSt hw).settle = .resolve (.num RIG_OK)) ∧
    NodeHamLib.Close closedSt [JSVal.num 0] = .thrown ("Rig is not open!") ∧
    (workerRun .destroyWorker closedSt okHw).exec.calls = [.rig_cleanup] ∧
    (workerRun .destroyWorker closedSt okHw).exec.post = destroyedSt ∧
    (workerRun .destroyWorker closedSt okHw).settle = .resolve (.num RIG_OK) ∧
    (∀ hw : HwLib, (workerRun .destroyWorker destroyedSt hw).exec.calls = []) := by
  refine ⟨fun hw => ⟨rfl, rfl⟩, by decide, by decide, by decide, by decide,
    fun hw => rfl⟩

/-- C3 witness for the oracle-universal clauses of the amended statement, at
the all-failing oracle. -/
theorem c3_amended_witness :
    (workerRun .closeWorker closedSt errHw).exec.calls = [] ∧
    (workerRun .closeWorker closedSt errHw).settle = .resolve (.num RIG_OK) ∧
    (workerRun .destroyWorker destroyedSt errHw).exec.calls = [] :=
  ⟨(c3_amended.1 errHw).1, (c3_amended.1 errHw).2, c3_amended.2.2.2.2.2 errHw⟩

/-- C6: `setFrequency(500)` and `setFrequency(2e10)` throw the out-of-range
validation error synchronously on an open connection (no worker queued, no
hamlib invocation), while `setFrequency(14074000)` queues the worker; the
worker performs exactly one `rig_set_freq` invocation and, for every hamlib
oracle, settles with the status the library returns: resolution with
`RIG_OK` on success, rejection carrying `rigerror` of the status otherwise. -/
theorem c6_frequency_bounds :
    NodeHamLib.SetFrequency openSt [JSVal.num 500]
      = .thrown ("Frequency out of range (1 kHz - 10 GHz)") ∧
    NodeHamLib.SetFrequency openSt [JSVal.num 20000000000]
      = .thrown ("Frequency out of range (1 kHz - 10 GHz)") ∧
    NodeHamLib.SetFrequency openSt [JSVal.num 14074000]
      = .queued (.setFrequency 14074000 .RIG_VFO_CURR) ∧
    (∀ hw : HwLib,
      (workerRun (.setFrequency 14074000 .RIG_VFO_CURR) openSt hw).exec.calls
        = [.rig_set_freq .RIG_VFO_CURR 14074000] ∧
      (workerRun (.setFrequency 14074000 .RIG_VFO_CURR) openSt hw).settle
        = (if hw.status (.rig_set_freq .RIG_VFO_CURR 14074000) = RIG_OK
           then .resolve (.num RIG_OK)
           else .reject (rigerror (hw.status (.rig_set_freq .RIG_VFO_CURR 14074000))))) := by
  refine ⟨by decide, by decide, by decide, ?_⟩
  intro hw
  constructor
  · rfl
  · by_cases h : hw.status (.rig_set_freq .RIG_VFO_CURR 14074000) = RIG_OK
    · simp [workerRun, execSimple, onOKNumeric, openSt, h]
    · simp [workerRun, execSimple, onOKNumeric, openSt, h, rigerror_ne_empty]

/-- C6 witness for the oracle-universal clause, at the all-failing oracle. -/
theorem c6_witness :
    (workerRun (.setFrequency 14074000 .RIG_VFO_CURR) openSt errHw).exec.calls
      = [.rig_set_freq .RIG_VFO_CURR 14074000] ∧
    (workerRun (.setFrequency 14074000 .RIG_VFO_CURR) openSt errHw).settle
      = (if errHw.status (.rig_set_freq .RIG_VFO_CURR 14074000) = RIG_OK
         then .resolve (.num RIG_OK)
         else .reject (rigerror (errHw.status (.rig_set_freq .RIG_VFO_CURR 14074000)))) :=
  c6_frequency_bounds.2.2.2 errHw

/-- C7: evaluation around the failing input. A successful destroy resolves,
nulls the handle and clears the open flag; a subsequent `getFrequency` throws
the synchronous state error and a subsequent `setParm` worker rejects with
the not-initialized diagnostic without any hamlib invocation — but a
subsequent `getSupportedLevels` dereferences the nulled handle
(`my_rig->caps`) instead of failing with a state error. -/
theorem c7_bug_eval :
    (workerRun .destroyWorker openSt okHw).settle = .resolve (.num RIG_OK) ∧
    (workerRun .destroyWorker openSt okHw).exec.post.rigPresent = false ∧
    (workerRun .destroyWorker openSt okHw).exec.post.rig_is_open = false ∧
    NodeHamLib.GetFrequency (workerRun .destroyWorker openSt okHw).exec.post []
      = .thrown ("Rig is not open!") ∧
    (workerRun (.setParm .RIG_PARM_BACKLIGHT 2)
        (workerRun .destroyWorker openSt okHw).exec.post okHw).exec.calls = [] ∧
    (workerRun (.setParm .RIG_PARM_BACKLIGHT 2)
        (workerRun .destroyWorker openSt okHw).exec.post okHw).settle
      = .reject ("RIG is not initialized or has been destroyed") ∧
    NodeHamLib.GetSupportedLevels (workerRun .destroyWorker openSt okHw).exec.post
        sampleCaps [] = .nullDeref := by
  refine ⟨by decide, by decide, by decide, by decide, by decide, by decide, by decide⟩

/-- C8 counterexample: with two pool threads there is a valid schedule of two
commands submitted against the same connection in which the second command's
hardware invocation begins before the first one's ends — the binding installs
no per-connection serialization, so strict one-at-a-time execution is not
guaranteed. The overlap is visible in the trace: `start jobA`, then
`start jobB`, then `finish jobA`. -/
theorem c8_counterexample :
    PoolTrace 2 ⟨[jobA, jobB], []⟩ overlapTrace ⟨[], []⟩ ∧
    jobA.conn = jobB.conn ∧ jobA ≠ jobB ∧
    overlapTrace = [.start jobA, .start jobB, .finish jobA, .finish jobB] := by
  refine ⟨?_, rfl, by decide, rfl⟩
  refine PoolTrace.cons (PoolStep.start jobA [jobB] [] (by decide)) ?_
  refine PoolTrace.cons (PoolStep.start jobB [] [jobA] (by decide)) ?_
  have h1 : PoolStep 2 ⟨[], [jobB, jobA]⟩ (.finish jobA) ⟨[], [jobB, jobA].erase jobA⟩ :=
    PoolStep.finish jobA [] [jobB, jobA] (by decide)
  have he : [jobB, jobA].erase jobA = [jobB] := by decide
  rw [he] at h1
  refine PoolTrace.cons h1 ?_
  have h2 : PoolStep 2 ⟨[], [jobB]⟩ (.finish jobB) ⟨[], [jobB].erase jobB⟩ :=
    PoolStep.finish jobB [] [jobB] (by decide)
  have he2 : [jobB].erase jobB = [] := by decide
  rw [he2] at h2
  exact PoolTrace.cons h2 (PoolTrace.nil _)

/-- C8 amended: what the pool does guarantee is FIFO pick-up — in every valid
trace of the shared pool, whatever the thread count, the jobs whose execution
began form a prefix of the submission queue in submission order (the initial
backlog equals the begun jobs followed by the remaining backlog). Overlap of
the begun jobs' hardware invocations on one connection is not prevented. -/
theorem c8_amended :
    ∀ (k : Nat) (s₀ : PoolState) (evs : List PoolEvent) (s : PoolState),
      PoolTrace k s₀ evs s → s₀.pending = startedJobs evs ++ s.pending := by
  intro k s₀ evs s h
  induction h with
  | nil s => simp [startedJobs]
  | cons step rest ih =>
    cases step with
    | start j pending running hlt => simpa [startedJobs] using ih
    | finish j pending running hmem => simpa [startedJobs] using ih

/-- C8 witness for the amended FIFO property, at a concrete one-step trace. -/
theorem c8_amended_witness :
    ([jobW] : List Job) = startedJobs [PoolEvent.start jobW] ++ ([] : List Job) :=
  c8_amended 1 ⟨[jobW], []⟩ [PoolEvent.start jobW] ⟨[], [jobW]⟩
    (PoolTrace.cons (PoolStep.start jobW [] [] (by decide)) (PoolTrace.nil _))

/-- C9: with a valid mode name, `setMode`'s second string argument is tried
as the bandwidth keyword `"narrow"` or `"wide"` first; any other string is
parsed as a VFO name (via `parseVfoParameter`) with normal bandwidth; and
with the VFO argument omitted the worker targets `RIG_VFO_CURR`. -/
theorem c9_setmode_disambiguation :
    ∀ (m bw : String), rig_parse_mode m ≠ .RIG_MODE_NONE →
      bw ≠ "narrow" → bw ≠ "wide" →
      NodeHamLib.SetMode openSt [JSVal.str m, JSVal.str "narrow"]
        = .queued (.setMode (rig_parse_mode m)
            (rig_passband_narrow (rig_parse_mode m)) .RIG_VFO_CURR) ∧
      NodeHamLib.SetMode openSt [JSVal.str m, JSVal.str "wide"]
        = .queued (.setMode (rig_parse_mode m)
            (rig_passband_wide (rig_parse_mode m)) .RIG_VFO_CURR) ∧
      NodeHamLib.SetMode openSt [JSVal.str m, JSVal.str bw]
        = .queued (.setMode (rig_parse_mode m) .RIG_PASSBAND_NORMAL
            (parseVfoParameter [JSVal.str m, JSVal.str bw] 1 .RIG_VFO_CURR)) ∧
      NodeHamLib.SetMode openSt [JSVal.str m]
        = .queued (.setMode (rig_parse_mode m) .RIG_PASSBAND_NORMAL .RIG_VFO_CURR) := by
  intro m bw hm h1 h2
  refine ⟨?_, ?_, ?_, ?_⟩ <;>
    simp [NodeHamLib.SetMode, openSt, argIsString, argString, hm, h1, h2]

/-- C9 witness at mode `"USB"` and second argument `"VFO-B"`. -/
theorem c9_witness :
    NodeHamLib.SetMode openSt [JSVal.str "USB", JSVal.str "VFO-B"]
      = .queued (.setMode (rig_parse_mode "USB") .RIG_PASSBAND_NORMAL
          (parseVfoParameter [JSVal.str "USB", JSVal.str "VFO-B"] 1 .RIG_VFO_CURR)) :=
  (c9_setmode_disambiguation "USB" "VFO-B" (by decide) (by decide) (by decide)).2.2.1

/-- C10: `reset()` with no arguments, and `reset` with a non-string first
argument, both queue the reset worker at the soft level `RIG_RESET_SOFT`
(no missing-argument error, for every instance state); a recognized name
queues its level, the worker submits `rig_reset` with the soft level, and
only an unrecognized name string throws the validation error. -/
theorem c10_reset_default :
    (∀ st : RigState, NodeHamLib.Reset st [] = .queued (.resetWorker .RIG_RESET_SOFT)) ∧
    (∀ (st : RigState) (v : JSVal), argIsString [v] 0 = false →
      NodeHamLib.Reset st [v] = .queued (.resetWorker .RIG_RESET_SOFT)) ∧
    (∀ (st : RigState) (s : String), parseResetName s = none →
      NodeHamLib.Reset st [JSVal.str s]
        = .thrown ("Invalid reset type: " ++ s ++
            " (valid: NONE, SOFT, VFO, MCALL, MASTER)")) ∧
    (∀ (st : RigState) (s : String) (r : reset_t), parseResetName s = some r →
      NodeHamLib.Reset st [JSVal.str s] = .queued (.resetWorker r)) ∧
    (∀ hw : HwLib,
      (workerRun (.resetWorker .RIG_RESET_SOFT) closedSt hw).exec.calls
        = [.rig_reset .RIG_RESET_SOFT]) := by
  refine ⟨fun st => rfl, ?_, ?_, ?_, fun hw => rfl⟩
  · intro st v hv
    simp [NodeHamLib.Reset, hv]
  · intro st s hs
    simp [NodeHamLib.Reset, argIsString, argString, hs]
  · intro st s r hs
    simp [NodeHamLib.Reset, argIsString, argString, hs]

/-- C10 witness: a numeric first argument and an unrecognized name, at the
closed state. -/
theorem c10_witness :
    NodeHamLib.Reset closedSt [JSVal.num 3] = .queued (.resetWorker .RIG_RESET_SOFT) ∧
    NodeHamLib.Reset closedSt [JSVal.str "FACTORY"]
      = .thrown ("Invalid reset type: " ++ "FACTORY" ++
          " (valid: NONE, SOFT, VFO, MCALL, MASTER)") ∧
    (workerRun (.resetWorker .RIG_RESET_SOFT) closedSt okHw).exec.calls
      = [.rig_reset .RIG_RESET_SOFT] :=
  ⟨c10_reset_default.2.1 closedSt (JSVal.num 3) rfl,
   c10_reset_default.2.2.1 closedSt "FACTORY" (by decide),
   c10_reset_default.2.2.2.2 okHw⟩

/-- C5 counterexample: an unrecognized VFO name in an optional-VFO position
is not a validation error — `setFrequency(14074000, "VFO-C")` silently
submits with the current VFO, `getFrequency("VFO-C")` likewise, and
`parseVfoParameter` returns its default for any unknown string even though
the argument was supplied, not omitted. -/
theorem c5_counterexample :
    NodeHamLib.SetFrequency openSt [JSVal.num 14074000, JSVal.str "VFO-C"]
      = .queued (.setFrequency 14074000 .RIG_VFO_CURR) ∧
    NodeHamLib.GetFrequency openSt [JSVal.str "VFO-C"]
      = .queued (.getFrequency .RIG_VFO_CURR) ∧
    parseVfoParameter [JSVal.str "VFO-C"] 0 .RIG_VFO_A = .RIG_VFO_A := by
  refine ⟨by decide, by decide, by decide⟩

/-- C5 amended: encode after decode is the identity on every name of each
bidirectional table (VFO via `setVfo`/`vfoDisplayName`, PTT and DCD types via
their set/get workers, level and function names via the parse ladders and
capability-name printers), and an unrecognized name in a required position is
rejected (synchronous throw for VFO/level/function/scan/VFO-op/reset,
asynchronous `-RIG_EINVAL` rejection for the PTT/DCD type workers) — but the
optional-VFO parser `parseVfoParameter` silently falls back to its default
VFO on any unrecognized string, not only when the argument is omitted. -/
theorem c5_amended :
    (NodeHamLib.SetVFO openSt [JSVal.str "VFO-A"] = .queued (.setVfo .RIG_VFO_A) ∧
     vfoDisplayName .RIG_VFO_A = "VFO-A" ∧
     NodeHamLib.SetVFO openSt [JSVal.str "VFO-B"] = .queued (.setVfo .RIG_VFO_B) ∧
     vfoDisplayName .RIG_VFO_B = "VFO-B" ∧
     (pttNames.all fun n => decide
       ((workerRun .getPttType (workerRun (.setPttType n) closedSt okHw).exec.post
          okHw).settle = .resolve (.str n))) = true ∧
     (dcdNames.all fun n => decide
       ((workerRun .getDcdType (workerRun (.setDcdType n) closedSt okHw).exec.post
          okHw).settle = .resolve (.str n))) = true ∧
     (levelSetNames.all fun n => decide ((parseLevelName n).map levelName = some n)) = true ∧
     (funcNames.all fun n => decide ((parseFuncName n).map funcName = some n)) = true) ∧
    ((∀ s : String, s ∉ vfoNames →
        NodeHamLib.SetVFO openSt [JSVal.str s] = .thrown ("Invalid VFO name")) ∧
     (∀ s : String, s ∉ levelSetNames →
        NodeHamLib.SetLevel openSt [JSVal.str s, JSVal.num 1]
          = .thrown ("Invalid level type")) ∧
     (∀ s : String, s ∉ funcNames →
        NodeHamLib.SetFunction openSt [JSVal.str s, JSVal.boolean true]
          = .thrown ("Invalid function type")) ∧
     (∀ s : String, s ∉ scanNames →
        NodeHamLib.StartScan openSt [JSVal.str s] = .thrown ("Invalid scan type")) ∧
     (∀ s : String, s ∉ vfoOpNames →
        NodeHamLib.VfoOperation openSt [JSVal.str s]
          = .thrown ("Invalid VFO operation")) ∧
     (∀ s : String, s ∉ resetNames →
        NodeHamLib.Reset openSt [JSVal.str s]
          = .thrown ("Invalid reset type: " ++ s ++
              " (valid: NONE, SOFT, VFO, MCALL, MASTER)")) ∧
     (∀ s : String, s ∉ pttNames →
        (workerRun (.setPttType s) closedSt okHw).settle
          = .reject ("Invalid PTT type")) ∧
     (∀ s : String, s ∉ dcdNames →
        (workerRun (.setDcdType s) closedSt okHw).settle
          = .reject ("Invalid DCD type"))) ∧
    (∀ (s : String) (d : vfo_t), s ∉ vfoNames →
        parseVfoParameter [JSVal.str s] 0 d = d) := by
  refine ⟨⟨by decide, by decide, by decide, by decide, by decide, by decide,
    by decide, by decide⟩, ⟨?_, ?_, ?_, ?_, ?_, ?_, ?_, ?_⟩, ?_⟩
  · intro s hs
    simp only [vfoNames, List.mem_cons, List.not_mem_nil, or_false, not_or] at hs
    obtain ⟨hA, hB⟩ := hs
    simp [NodeHamLib.SetVFO, openSt, argIsString, argString, hA, hB]
  · intro s hs
    rcases parseLevelName_none_or_mem s with h | h
    · simp [NodeHamLib.SetLevel, openSt, argIsString, argIsNumber, argString, h]
    · exact absurd h hs
  · intro s hs
    rcases parseFuncName_none_or_mem s with h | h
    · simp [NodeHamLib.SetFunction, openSt, argIsString, argIsBoolean, argString, h]
    · exact absurd h hs
  · intro s hs
    rcases parseScanName_none_or_mem s with h | h
    · simp [NodeHamLib.StartScan, openSt, argIsString, argString, h]
    · exact absurd h hs
  · intro s hs
    rcases parseVfoOpName_none_or_mem s with h | h
    · simp [NodeHamLib.VfoOperation, openSt, argIsString, argString, h]
    · exact absurd h hs
  · intro s hs
    rcases parseResetName_none_or_mem s with h | h
    · simp [NodeHamLib.Reset, argIsString, argString, h]
    · exact absurd h hs
  · intro s hs
    rcases parsePttType_none_or_mem s with h | h
    · simp [workerRun, closedSt, onOKNumeric, h]
      decide
    · exact absurd h hs
  · intro s hs
    rcases parseDcdType_none_or_mem s with h | h
    · simp [workerRun, closedSt, onOKNumeric, h]
      decide
    · exact absurd h hs
  · intro s d hs
    simp only [vfoNames, List.mem_cons, List.not_mem_nil, or_false, not_or] at hs
    obtain ⟨hA, hB⟩ := hs
    simp [parseVfoParameter, argIsString, argString, hA, hB]

/-- C5 witness for the universally quantified clauses of the amended
statement, at the unrecognized name `"SSB"`. -/
theorem c5_amended_witness :
    NodeHamLib.SetVFO openSt [JSVal.str "SSB"] = .thrown ("Invalid VFO name") ∧
    NodeHamLib.SetLevel openSt [JSVal.str "SSB", JSVal.num 1]
      = .thrown ("Invalid level type") ∧
    NodeHamLib.StartScan openSt [JSVal.str "SSB"] = .thrown ("Invalid scan type") ∧
    (workerRun (.setPttType "SSB") closedSt okHw).settle
      = .reject ("Invalid PTT type") ∧
    parseVfoParameter [JSVal.str "SSB"] 0 .RIG_VFO_MEM = .RIG_VFO_MEM :=
  ⟨c5_amended.2.1.1 "SSB" (by decide),
   c5_amended.2.1.2.1 "SSB" (by decide),
   c5_amended.2.1.2.2.2.1 "SSB" (by decide),
   c5_amended.2.1.2.2.2.2.2.2.1 "SSB" (by decide),
   c5_amended.2.2 "SSB" .RIG_VFO_MEM (by decide)⟩
